import Mathlib

/-!
Verification of the `ApartmentModal` component
(`src/components/ApartmentModal.tsx`).

The component is embedded shallowly: its pure helpers (`toNumber`,
`formatPrice`, `formatArea`, `isCommercial`, `isStudio`, `capitalize`)
become Lean functions, its view state (`currentImageIndex`,
`lightboxOpen`) becomes a state record, and its event handlers
(`onKey`, `handleBackdropClick`, the inline `onClick` arrows) become a
step function over that record.  Invocations of the `onClose` callback
are counted explicitly in each step result.
-/

/-- Values of the TypeScript union `number | string | null | undefined`
used for monetary inputs.  JavaScript numbers are modelled as integers:
every monetary value appearing in the data records and in the
specification examples is an integer, and the non-integer corners of
IEEE doubles (NaN, infinities, fractions) are outside the modelled
domain. -/
inductive JsVal where
  | num (n : Int)
  | str (s : String)
  | null
  | undef
deriving DecidableEq, Repr

/-- Installment plan record: six optional monetary fields, accessed in
the source through an `any` cast, so an absent field reads as
`undefined`. -/
structure InstallmentPlan where
  booking : JsVal
  allotmentConfirmation : JsVal
  monthlyInstallments : JsVal
  halfYearly : JsVal
  onPossession : JsVal
  total : JsVal
deriving DecidableEq, Repr

/-- Unit record consumed by the component (the `Apartment` input type,
reconstructed from the fields the component reads). -/
structure Apartment where
  id : String
  number : String
  floorId : String
  type : String
  status : String
  bedrooms : Option Nat
  bathrooms : Option Nat
  area : Option Nat
  price : JsVal
  installmentOptions : Option InstallmentPlan
  renders : Option (List String)
deriving DecidableEq, Repr

/-- Strips every comma, as `String(val).replace(/,/g, "")` does. -/
def stripCommas (s : String) : String :=
  ⟨s.data.filter (fun c => c ≠ ',')⟩

/-- Whitespace characters recognised by the ECMAScript trimming of a
string being coerced to a number (the common ASCII ones). -/
def isJsSpace (c : Char) : Bool :=
  c = ' ' || c = '\t' || c = '\n' || c = '\r'

/-- Drops leading and trailing whitespace from a character list. -/
def trimChars (cs : List Char) : List Char :=
  ((cs.dropWhile isJsSpace).reverse.dropWhile isJsSpace).reverse

/-- Value of a list of decimal digit characters, most significant
first. -/
def digitsToNat (cs : List Char) : Nat :=
  cs.foldl (fun n c => n * 10 + (c.toNat - 48)) 0

/-- Parses a non-empty all-digit character list; anything else is
`none`. -/
def parseDigits (cs : List Char) : Option Nat :=
  if cs ≠ [] ∧ cs.all Char.isDigit then some (digitsToNat cs) else none

/-- Models the ECMAScript string-to-number coercion `Number(s)` on the
decimal-integer fragment: surrounding whitespace is trimmed, the empty
or all-whitespace string coerces to `0`, an optional sign followed by
decimal digits coerces to the signed value, and anything else yields
`none` (NaN).  Fractional, hexadecimal, exponential and Infinity
literals are outside the modelled domain. -/
def jsStringToNumber (s : String) : Option Int :=
  match trimChars s.data with
  | [] => some 0
  | '-' :: rest => (parseDigits rest).map (fun n => -(n : Int))
  | '+' :: rest => (parseDigits rest).map (fun n => (n : Int))
  | cs => (parseDigits cs).map (fun n => (n : Int))

/-- Embedding of `toNumber` (ApartmentModal.tsx lines 30 to 35):
`undefined`, `null` and the empty string give `null`; a number is
returned as is; a string has its commas stripped and is coerced, with
NaN mapped to `null`. -/
def toNumber : JsVal → Option Int
  | .undef => none
  | .null => none
  | .num n => some n
  | .str s => if s = "" then none else jsStringToNumber (stripCommas s)

/-- Walks a reversed digit list inserting a comma before every fourth
digit of a group of three; the counter is the number of digits already
emitted in the current group. -/
def commaGroupRev (k : Nat) : List Char → List Char
  | [] => []
  | c :: rest =>
    if k = 3 then ',' :: c :: commaGroupRev 1 rest
    else c :: commaGroupRev (k + 1) rest

/-- Formats a natural number with comma thousands separators, as the
`en-PK` number pattern groups digits. -/
def groupThousands (n : Nat) : String :=
  ⟨(commaGroupRev 0 (toString n).data.reverse).reverse⟩

/-- Models the host collaborator
`Intl.NumberFormat("en-PK", currency PKR, minimumFractionDigits 0)`:
the PKR currency sign followed by the grouped digits, a leading minus
sign for negative amounts, and no fraction digits on integers. -/
def formatPKR (n : Int) : String :=
  if n < 0 then "-₨" ++ groupThousands n.natAbs
  else "₨" ++ groupThousands n.natAbs

/-- Embedding of `formatPrice` (ApartmentModal.tsx lines 37 to 48): a
parseable amount is rendered as PKR currency; otherwise a truthy (non
empty) string input is returned verbatim and everything else renders as
"N/A". -/
def formatPrice (price : JsVal) : String :=
  match toNumber price with
  | some n => formatPKR n
  | none =>
    match price with
    | .str s => if s ≠ "" then s else "N/A"
    | _ => "N/A"

/-- Embedding of `formatArea` (ApartmentModal.tsx lines 50 to 53). -/
def formatArea : Option Nat → String
  | none => "N/A"
  | some a => groupThousands a ++ " sq ft"

/-- Embedding of `isCommercial` (lines 81 to 83):
`["shop", "office"].includes(apartment.type.toLowerCase())`. -/
def isCommercial (ty : String) : Bool :=
  (["shop", "office"] : List String).contains ty.toLower

/-- Embedding of `isStudio` (line 84):
`apartment.type.toLowerCase() === "studio"`. -/
def isStudio (ty : String) : Bool :=
  ty.toLower == "studio"

/-- Derived unit classification, per section 4.1 of the specification:
one of commercial, studio, residential. -/
inductive Classification where
  | commercial
  | studio
  | residential
deriving DecidableEq, Repr

/-- The classification the rendering branches realise: the
`isCommercial` branches dominate, then `isStudio`, then residential. -/
def classifyUnit (ty : String) : Classification :=
  if isCommercial ty then .commercial
  else if isStudio ty then .studio
  else .residential

/-- Embedding of `capitalize` (lines 86 to 89). -/
def capitalize (str : String) : String :=
  if str = "" then ""
  else ⟨str.front.toUpper :: (str.drop 1).data⟩

/-- View state held by the component: `currentImageIndex` and
`lightboxOpen` (lines 27 and 28). -/
structure ModalState where
  currentImageIndex : Nat
  lightboxOpen : Bool
deriving DecidableEq, Repr

/-- Initial view state: `useState(0)` and `useState(false)`. -/
def initialState : ModalState := ⟨0, false⟩

/-- Length the guards `apartment.renders?.length` and the modulus
`apartment.renders!.length` read: `0` when `renders` is absent (the
optional chain yields `undefined`, which is falsy exactly like `0`). -/
def rendersLen (a : Apartment) : Nat :=
  match a.renders with
  | none => 0
  | some l => l.length

/-- Embedding of the inline updater `(i) => (i + 1) % length` used by
the ArrowRight key (line 62) and the next button (line 299). -/
def nextIndex (len i : Nat) : Nat :=
  (i + 1) % len

/-- Embedding of the inline updater `(i) => (i - 1 + length) % length`
used by the ArrowLeft key (line 66) and the previous button (lines 286
to 290); the JavaScript arithmetic is signed, so it is computed over
the integers and the non negative result is read back. -/
def prevIndex (len i : Nat) : Nat :=
  (((i : Int) - 1 + (len : Int)) % (len : Int)).toNat

/-- Keyboard keys the `onKey` handler distinguishes; every other key is
`other`. -/
inductive Key where
  | escape
  | arrowRight
  | arrowLeft
  | other
deriving DecidableEq, Repr

/-- Embedding of the `onKey` keydown handler (lines 56 to 69).  The
returned number counts the `onClose()` invocations the handler makes. -/
def onKey (a : Apartment) (s : ModalState) : Key → ModalState × Nat
  | .escape =>
    if s.lightboxOpen then (⟨s.currentImageIndex, false⟩, 0)
    else (s, 1)
  | .arrowRight =>
    if rendersLen a ≠ 0 then
      (⟨nextIndex (rendersLen a) s.currentImageIndex, s.lightboxOpen⟩, 0)
    else (s, 0)
  | .arrowLeft =>
    if rendersLen a ≠ 0 then
      (⟨prevIndex (rendersLen a) s.currentImageIndex, s.lightboxOpen⟩, 0)
    else (s, 0)
  | .other => (s, 0)

/-- Embedding of `handleBackdropClick` (lines 74 to 79).  The Boolean
argument is `e.target === e.currentTarget`: whether the click landed on
the overlay element itself rather than a descendant. -/
def handleBackdropClick (targetIsOverlay : Bool) (s : ModalState) :
    ModalState × Nat :=
  if targetIsOverlay then
    if s.lightboxOpen then (⟨s.currentImageIndex, false⟩, 0)
    else (s, 1)
  else (s, 0)

/-- User interactions the rendered markup exposes.  The Boolean on the
backdrop clicks is `e.target === e.currentTarget`. -/
inductive UIEvent where
  | keydown (k : Key)
  | headerCloseClick
  | prevButtonClick
  | nextButtonClick
  | imageClick
  | expandClick
  | lightboxCloseClick
  | mainBackdropClick (targetIsOverlay : Bool)
  | lightboxBackdropClick (targetIsOverlay : Bool)
deriving DecidableEq, Repr

/-- Gallery section condition (line 255):
`apartment.renders && apartment.renders.length > 0`. -/
def galleryRendered (a : Apartment) : Bool :=
  a.renders.isSome && decide (0 < rendersLen a)

/-- Gallery heading (lines 257 to 261): plural wording above one image,
singular wording otherwise. -/
def galleryHeading (a : Apartment) : String :=
  if 1 < rendersLen a then "Image Gallery" else "Render & Image"

/-- Navigation buttons condition (line 281):
`apartment.renders.length > 1`, inside the gallery section. -/
def navRendered (a : Apartment) : Bool :=
  galleryRendered a && decide (1 < rendersLen a)

/-- Expand button condition (lines 307 to 312): present whenever the
gallery section is. -/
def expandRendered (a : Apartment) : Bool :=
  galleryRendered a

/-- Lightbox overlay condition (line 343):
`lightboxOpen && apartment.renders`.  An empty array is truthy, so only
absence of `renders` suppresses the overlay. -/
def lightboxRendered (a : Apartment) (s : ModalState) : Bool :=
  s.lightboxOpen && a.renders.isSome

/-- Payment breakdown condition (line 189): the installment options
object is present (objects are always truthy). -/
def paymentPanelRendered (a : Apartment) : Bool :=
  a.installmentOptions.isSome

/-- Contact-us fallback condition (line 244): the negative branch of
the same conditional. -/
def contactFallbackRendered (a : Apartment) : Bool :=
  !a.installmentOptions.isSome

/-- The six formatted lines of the payment breakdown (lines 192 to
241), in source order, the total last. -/
def paymentLines (p : InstallmentPlan) : List String :=
  [formatPrice p.booking,
   formatPrice p.allotmentConfirmation,
   formatPrice p.monthlyInstallments,
   formatPrice p.halfYearly,
   formatPrice p.onPossession,
   formatPrice p.total]

/-- Bedroom line condition (line 152): `!isCommercial && !isStudio`. -/
def bedroomLineRendered (a : Apartment) : Bool :=
  !isCommercial a.type && !isStudio a.type

/-- Bathroom line condition (line 160): `!isCommercial`. -/
def bathroomLineRendered (a : Apartment) : Bool :=
  !isCommercial a.type

/-- Price line condition (line 174): `!isCommercial`. -/
def priceLineRendered (a : Apartment) : Bool :=
  !isCommercial a.type

/-- Whether the interaction is available: keys arrive on a global
listener, the overlay and header close control always exist, and each
remaining control exists exactly when the markup that carries its
`onClick` is rendered. -/
def eventEnabled (a : Apartment) (s : ModalState) : UIEvent → Bool
  | .keydown _ => true
  | .headerCloseClick => true
  | .prevButtonClick => navRendered a
  | .nextButtonClick => navRendered a
  | .imageClick => galleryRendered a
  | .expandClick => galleryRendered a
  | .lightboxCloseClick => lightboxRendered a s
  | .mainBackdropClick _ => true
  | .lightboxBackdropClick _ => lightboxRendered a s

/-- One synchronous reaction to an interaction: the next view state and
the number of `onClose()` invocations made during the reaction. -/
def step (a : Apartment) (s : ModalState) : UIEvent → ModalState × Nat
  | .keydown k => onKey a s k
  | .headerCloseClick => (s, 1)
  | .prevButtonClick =>
    (⟨prevIndex (rendersLen a) s.currentImageIndex, s.lightboxOpen⟩, 0)
  | .nextButtonClick =>
    (⟨nextIndex (rendersLen a) s.currentImageIndex, s.lightboxOpen⟩, 0)
  | .imageClick => (⟨s.currentImageIndex, true⟩, 0)
  | .expandClick => (⟨s.currentImageIndex, true⟩, 0)
  | .lightboxCloseClick => (⟨s.currentImageIndex, false⟩, 0)
  | .mainBackdropClick t => handleBackdropClick t s
  | .lightboxBackdropClick t => handleBackdropClick t s

/-- View states reachable from the initial state through enabled
interactions. -/
inductive Reachable (a : Apartment) : ModalState → Prop
  | init : Reachable a initialState
  | step {s : ModalState} {e : UIEvent} :
      Reachable a s → eventEnabled a s e = true → Reachable a (step a s e).1

/-! Helper lemmas about the carousel index arithmetic. -/

theorem prevIndex_eq (len i : Nat) (h : 0 < len) :
    prevIndex len i = (i + (len - 1)) % len := by
  have h2 : ((i : Int) - 1 + (len : Int)) % (len : Int)
      = (((i + (len - 1)) % len : Nat) : Int) := by
    rw [Int.natCast_mod]
    congr 1
    omega
  unfold prevIndex
  rw [h2]
  exact Int.toNat_natCast _

theorem prevIndex_lt (len i : Nat) (h : 0 < len) : prevIndex len i < len := by
  rw [prevIndex_eq len i h]
  exact Nat.mod_lt _ h

theorem nextIndex_lt (len i : Nat) (h : 0 < len) : nextIndex len i < len :=
  Nat.mod_lt _ h

theorem addMod_iterate (len d : Nat) (h : 0 < len) :
    ∀ (k i : Nat), i < len →
      (fun j => (j + d) % len)^[k] i = (i + k * d) % len := by
  intro k
  induction k with
  | zero =>
    intro i hi
    simp [Nat.mod_eq_of_lt hi]
  | succ k ih =>
    intro i hi
    rw [Function.iterate_succ_apply]
    show (fun j => (j + d) % len)^[k] ((i + d) % len) = _
    rw [ih _ (Nat.mod_lt _ h), Nat.mod_add_mod]
    congr 1
    ring

theorem step_index_cases (a : Apartment) (s : ModalState) (e : UIEvent) :
    (step a s e).1.currentImageIndex = s.currentImageIndex ∨
    (step a s e).1.currentImageIndex
      = nextIndex (rendersLen a) s.currentImageIndex ∨
    (step a s e).1.currentImageIndex
      = prevIndex (rendersLen a) s.currentImageIndex := by
  cases e with
  | keydown k =>
    cases k <;> simp only [step, onKey] <;> (try split_ifs) <;> simp
  | mainBackdropClick t =>
    simp only [step, handleBackdropClick]
    split_ifs <;> simp
  | lightboxBackdropClick t =>
    simp only [step, handleBackdropClick]
    split_ifs <;> simp
  | headerCloseClick => simp [step]
  | prevButtonClick => simp [step]
  | nextButtonClick => simp [step]
  | imageClick => simp [step]
  | expandClick => simp [step]
  | lightboxCloseClick => simp [step]

/-- C1: for every unit record with a non-empty renders sequence of
length N, the current image index starts at 0 and lies in [0, N) in
every reachable view state: every index-changing operation (arrow keys,
navigation buttons) computes the new index modulo N, so no sequence of
enabled operations produces an index outside [0, N). -/
theorem carousel_index_invariant (a : Apartment) (l : List String)
    (hr : a.renders = some l) (hne : l ≠ []) :
    initialState.currentImageIndex = 0 ∧
    ∀ s : ModalState, Reachable a s → s.currentImageIndex < l.length := by
  have hlen : rendersLen a = l.length := by simp [rendersLen, hr]
  have hpos : 0 < l.length := List.length_pos.mpr hne
  refine ⟨rfl, ?_⟩
  intro s hs
  induction hs with
  | init => exact hpos
  | step hr' he ih =>
    rename_i s' e
    rcases step_index_cases a s' e with h | h | h
    · rw [h]; exact ih
    · rw [h, hlen]; exact nextIndex_lt _ _ hpos
    · rw [h, hlen]; exact prevIndex_lt _ _ hpos

/-- Witness for C1 at a concrete two-image record and the initial
state. -/
theorem carousel_index_invariant_witness :
    initialState.currentImageIndex = 0 ∧
    initialState.currentImageIndex < (["r1", "r2"] : List String).length := by
  have h := carousel_index_invariant
    (Apartment.mk "u1" "A-101" "first" "studio" "available"
      none none none .undef none (some ["r1", "r2"]))
    ["r1", "r2"] rfl (by decide)
  exact ⟨h.1, h.2 initialState Reachable.init⟩

/-- C2: for every non-empty render sequence of length N and every
index i in [0, N), applying next N times returns to i, applying
previous N times returns to i, and next followed by previous is the
identity on the index. -/
theorem carousel_cyclic (l : List String) (i : Nat)
    (hne : l ≠ []) (hi : i < l.length) :
    (nextIndex l.length)^[l.length] i = i ∧
    (prevIndex l.length)^[l.length] i = i ∧
    prevIndex l.length (nextIndex l.length i) = i := by
  have h : 0 < l.length := List.length_pos.mpr hne
  refine ⟨?_, ?_, ?_⟩
  · show (fun j => (j + 1) % l.length)^[l.length] i = i
    rw [addMod_iterate l.length 1 h l.length i hi, Nat.mul_one,
      Nat.add_mod_right]
    exact Nat.mod_eq_of_lt hi
  · have hf : prevIndex l.length
        = fun j => (j + (l.length - 1)) % l.length := by
      funext j
      exact prevIndex_eq l.length j h
    rw [hf, addMod_iterate l.length (l.length - 1) h l.length i hi,
      Nat.add_mul_mod_self_left]
    exact Nat.mod_eq_of_lt hi
  · rw [prevIndex_eq _ _ h]
    show ((i + 1) % l.length + (l.length - 1)) % l.length = i
    rw [Nat.mod_add_mod]
    have hsum : i + 1 + (l.length - 1) = i + l.length := by omega
    rw [hsum, Nat.add_mod_right]
    exact Nat.mod_eq_of_lt hi

/-- Witness for C2 on a two-image sequence starting at index 1. -/
theorem carousel_cyclic_witness :
    (nextIndex (["r1", "r2"] : List String).length)^[
      (["r1", "r2"] : List String).length] 1 = 1 ∧
    (prevIndex (["r1", "r2"] : List String).length)^[
      (["r1", "r2"] : List String).length] 1 = 1 ∧
    prevIndex (["r1", "r2"] : List String).length
      (nextIndex (["r1", "r2"] : List String).length 1) = 1 :=
  carousel_cyclic ["r1", "r2"] 1 (by decide) (by decide)

/-- C3: the currency formatter maps `undefined` to "N/A", formats
1250000 and the comma-grouped string "1,250,000" as PKR with zero
fraction digits, returns every non-empty unparseable string verbatim,
and, being a total function on the whole input union, throws for no
number, string, null or undefined input. -/
theorem formatPrice_spec :
    formatPrice .undef = "N/A" ∧
    formatPrice (.num 1250000) = "₨1,250,000" ∧
    formatPrice (.str "1,250,000") = "₨1,250,000" ∧
    (∀ s : String, s ≠ "" → toNumber (.str s) = none →
      formatPrice (.str s) = s) ∧
    (∀ v : JsVal, ∃ out : String, formatPrice v = out) := by
  refine ⟨rfl, by decide, by decide, ?_, fun v => ⟨formatPrice v, rfl⟩⟩
  intro s hs hn
  simp only [formatPrice, hn]
  simp [hs]

/-- Witness for C3 on the unparseable string "Contact us". -/
theorem formatPrice_spec_witness :
    formatPrice (.str "Contact us") = "Contact us" :=
  formatPrice_spec.2.2.2.1 "Contact us" (by decide) (by decide)

/-- C4: from any state with the lightbox open, Escape closes only the
lightbox (no `onClose` call, index untouched, so the main dialog stays
up); a second Escape from the resulting state invokes `onClose`; across
the two presses `onClose` is invoked exactly once. -/
theorem escape_two_level_dismissal (a : Apartment) (s : ModalState)
    (h : s.lightboxOpen = true) :
    (onKey a s .escape).1.lightboxOpen = false ∧
    (onKey a s .escape).2 = 0 ∧
    (onKey a s .escape).1.currentImageIndex = s.currentImageIndex ∧
    (onKey a (onKey a s .escape).1 .escape).2 = 1 ∧
    (onKey a s .escape).2 + (onKey a (onKey a s .escape).1 .escape).2 = 1 := by
  simp [onKey, h]

/-- Witness for C4 at a concrete record and an open-lightbox state. -/
theorem escape_two_level_dismissal_witness :
    (onKey
      (Apartment.mk "u2" "A-102" "first" "studio" "available"
        none none none .undef none (some ["r1"]))
      (ModalState.mk 0 true) .escape).1.lightboxOpen = false ∧
    (onKey
      (Apartment.mk "u2" "A-102" "first" "studio" "available"
        none none none .undef none (some ["r1"]))
      (ModalState.mk 0 true) .escape).2 = 0 ∧
    (onKey
      (Apartment.mk "u2" "A-102" "first" "studio" "available"
        none none none .undef none (some ["r1"]))
      (ModalState.mk 0 true) .escape).1.currentImageIndex
      = (ModalState.mk 0 true).currentImageIndex ∧
    (onKey
      (Apartment.mk "u2" "A-102" "first" "studio" "available"
        none none none .undef none (some ["r1"]))
      (onKey
        (Apartment.mk "u2" "A-102" "first" "studio" "available"
          none none none .undef none (some ["r1"]))
        (ModalState.mk 0 true) .escape).1 .escape).2 = 1 ∧
    (onKey
      (Apartment.mk "u2" "A-102" "first" "studio" "available"
        none none none .undef none (some ["r1"]))
      (ModalState.mk 0 true) .escape).2
      + (onKey
        (Apartment.mk "u2" "A-102" "first" "studio" "available"
          none none none .undef none (some ["r1"]))
        (onKey
          (Apartment.mk "u2" "A-102" "first" "studio" "available"
            none none none .undef none (some ["r1"]))
          (ModalState.mk 0 true) .escape).1 .escape).2 = 1 :=
  escape_two_level_dismissal
    (Apartment.mk "u2" "A-102" "first" "studio" "available"
      none none none .undef none (some ["r1"]))
    (ModalState.mk 0 true) rfl

/-- C5: classification of the type string is by its lowercase form
(shop and office are commercial, exactly studio is studio, everything
else residential), the bedroom line is rendered iff the classification
is residential, the bathroom line iff it is not commercial, and the
price line is absent iff it is commercial. -/
theorem classification_rendering (a : Apartment) :
    (classifyUnit a.type = .commercial ↔
      (a.type.toLower = "shop" ∨ a.type.toLower = "office")) ∧
    (classifyUnit a.type = .studio ↔ a.type.toLower = "studio") ∧
    (classifyUnit a.type = .residential ↔
      (a.type.toLower ≠ "shop" ∧ a.type.toLower ≠ "office" ∧
        a.type.toLower ≠ "studio")) ∧
    (bedroomLineRendered a = true ↔ classifyUnit a.type = .residential) ∧
    (bathroomLineRendered a = true ↔ classifyUnit a.type ≠ .commercial) ∧
    (priceLineRendered a = false ↔ classifyUnit a.type = .commercial) := by
  have hc : isCommercial a.type = true ↔
      (a.type.toLower = "shop" ∨ a.type.toLower = "office") := by
    simp [isCommercial, List.contains, List.elem_eq_mem]
  have hs : isStudio a.type = true ↔ a.type.toLower = "studio" := by
    simp [isStudio]
  by_cases h1 : a.type.toLower = "shop" <;>
    by_cases h2 : a.type.toLower = "office" <;>
      by_cases h3 : a.type.toLower = "studio" <;>
        simp_all [classifyUnit, bedroomLineRendered, bathroomLineRendered,
          priceLineRendered]

/-- C6: backdrop dismissal fires only when the click target is the
overlay element itself: a descendant click on either overlay changes
nothing and never invokes `onClose`, and an overlay-target click on the
lightbox backdrop (the lightbox being open whenever that overlay
exists) closes only the lightbox with no `onClose` call. -/
theorem backdrop_click_target_discipline :
    (∀ (a : Apartment) (s : ModalState),
      step a s (.mainBackdropClick false) = (s, 0) ∧
      step a s (.lightboxBackdropClick false) = (s, 0)) ∧
    (∀ (a : Apartment) (s : ModalState), s.lightboxOpen = true →
      step a s (.lightboxBackdropClick true)
        = (⟨s.currentImageIndex, false⟩, 0)) := by
  constructor
  · intro a s
    exact ⟨rfl, rfl⟩
  · intro a s h
    simp [step, handleBackdropClick, h]

/-- Witness for C6 at a concrete record and an open-lightbox state. -/
theorem backdrop_click_target_discipline_witness :
    step
      (Apartment.mk "u3" "A-103" "first" "studio" "available"
        none none none .undef none (some ["r1"]))
      (ModalState.mk 0 true) (.lightboxBackdropClick true)
      = (⟨(ModalState.mk 0 true).currentImageIndex, false⟩, 0) :=
  backdrop_click_target_discipline.2
    (Apartment.mk "u3" "A-103" "first" "studio" "available"
      none none none .undef none (some ["r1"]))
    (ModalState.mk 0 true) rfl

/-- C7: the gallery region is rendered iff `renders` is a non-empty
sequence; when rendered, the heading is the plural wording iff more
than one image and the singular wording iff exactly one; with exactly
one image the navigation controls are absent but the expand control is
present. -/
theorem gallery_rendering (a : Apartment) :
    (galleryRendered a = true ↔ ∃ l, a.renders = some l ∧ l ≠ []) ∧
    (galleryRendered a = true →
      ((galleryHeading a = "Image Gallery" ↔ 1 < rendersLen a) ∧
        (galleryHeading a = "Render & Image" ↔ rendersLen a = 1))) ∧
    (rendersLen a = 1 →
      navRendered a = false ∧ expandRendered a = true) := by
  have hne : ("Image Gallery" : String) ≠ "Render & Image" := by decide
  refine ⟨?_, ?_, ?_⟩
  · cases hr : a.renders with
    | none => simp [galleryRendered, hr]
    | some l =>
      simp [galleryRendered, rendersLen, hr, List.length_pos]
  · intro hg
    have hpos : 0 < rendersLen a := by
      cases hr : a.renders with
      | none => simp [galleryRendered, hr] at hg
      | some l =>
        simp only [galleryRendered, rendersLen, hr] at hg ⊢
        simpa using hg
    constructor
    · unfold galleryHeading
      split_ifs with h <;> simp [h, hne, hne.symm]
    · unfold galleryHeading
      split_ifs with h <;> simp [hne, hne.symm] <;> omega
  · intro h1
    have hsome : a.renders.isSome = true := by
      cases hr : a.renders with
      | none => simp [rendersLen, hr] at h1
      | some l => simp [hr]
    constructor
    · simp [navRendered, h1]
    · simp [expandRendered, galleryRendered, hsome, h1]

/-- Witness for C7 at a concrete single-image record. -/
theorem gallery_rendering_witness :
    navRendered
      (Apartment.mk "u4" "A-104" "first" "studio" "available"
        none none none .undef none (some ["r1"])) = false ∧
    expandRendered
      (Apartment.mk "u4" "A-104" "first" "studio" "available"
        none none none .undef none (some ["r1"])) = true :=
  (gallery_rendering
    (Apartment.mk "u4" "A-104" "first" "studio" "available"
      none none none .undef none (some ["r1"]))).2.2 rfl

/-- C8: the payment breakdown panel is rendered iff the installment
plan object is present; a present plan with all six monetary fields
absent shows six "N/A" lines, the total included; an absent plan
renders the contact-sales fallback instead. -/
theorem installment_panel (a : Apartment) (p : InstallmentPlan) :
    (paymentPanelRendered a = true ↔ ∃ q, a.installmentOptions = some q) ∧
    (contactFallbackRendered a = true ↔ a.installmentOptions = none) ∧
    (p.booking = .undef → p.allotmentConfirmation = .undef →
      p.monthlyInstallments = .undef → p.halfYearly = .undef →
      p.onPossession = .undef → p.total = .undef →
      paymentLines p = ["N/A", "N/A", "N/A", "N/A", "N/A", "N/A"]) := by
  refine ⟨?_, ?_, ?_⟩
  · simp [paymentPanelRendered, Option.isSome_iff_exists]
  · simp [contactFallbackRendered, Option.isSome_iff_exists]
  · intro h1 h2 h3 h4 h5 h6
    simp [paymentLines, h1, h2, h3, h4, h5, h6, formatPrice, toNumber]

/-- Witness for C8 at the all-absent installment plan. -/
theorem installment_panel_witness :
    paymentLines (InstallmentPlan.mk .undef .undef .undef .undef .undef .undef)
      = ["N/A", "N/A", "N/A", "N/A", "N/A", "N/A"] :=
  (installment_panel
    (Apartment.mk "u5" "A-105" "first" "studio" "available"
      none none none .undef
      (some (InstallmentPlan.mk .undef .undef .undef .undef .undef .undef))
      none)
    (InstallmentPlan.mk .undef .undef .undef .undef .undef .undef)).2.2
    rfl rfl rfl rfl rfl rfl

/-- C9: an ArrowRight or ArrowLeft key event changes nothing when
`renders` is empty or absent; when `renders` is non-empty it moves the
shared image index with wraparound, makes no `onClose` call, leaves the
lightbox flag unchanged, and its effect on the index does not depend on
whether the lightbox is open. -/
theorem arrow_keys_frame (a : Apartment) (s : ModalState) (k : Key)
    (hk : k = .arrowRight ∨ k = .arrowLeft) :
    (rendersLen a = 0 → onKey a s k = (s, 0)) ∧
    (0 < rendersLen a →
      (onKey a s k).1.lightboxOpen = s.lightboxOpen ∧
      (onKey a s k).2 = 0 ∧
      (k = .arrowRight →
        (onKey a s k).1.currentImageIndex
          = nextIndex (rendersLen a) s.currentImageIndex) ∧
      (k = .arrowLeft →
        (onKey a s k).1.currentImageIndex
          = prevIndex (rendersLen a) s.currentImageIndex)) ∧
    (∀ s' : ModalState, s'.currentImageIndex = s.currentImageIndex →
      (onKey a s' k).1.currentImageIndex
        = (onKey a s k).1.currentImageIndex) := by
  rcases hk with hk | hk <;> subst hk <;>
    refine ⟨?_, ?_, ?_⟩ <;>
      simp only [onKey] <;> split_ifs <;> simp_all

/-- Witness for C9: ArrowRight on a two-image record from index 1 with
the lightbox open wraps the index to 0 and touches nothing else. -/
theorem arrow_keys_frame_witness :
    (onKey
      (Apartment.mk "u6" "A-106" "first" "studio" "available"
        none none none .undef none (some ["r1", "r2"]))
      (ModalState.mk 1 true) .arrowRight).1.lightboxOpen
      = (ModalState.mk 1 true).lightboxOpen ∧
    (onKey
      (Apartment.mk "u6" "A-106" "first" "studio" "available"
        none none none .undef none (some ["r1", "r2"]))
      (ModalState.mk 1 true) .arrowRight).2 = 0 ∧
    (onKey
      (Apartment.mk "u6" "A-106" "first" "studio" "available"
        none none none .undef none (some ["r1", "r2"]))
      (ModalState.mk 1 true) .arrowRight).1.currentImageIndex
      = nextIndex
        (rendersLen
          (Apartment.mk "u6" "A-106" "first" "studio" "available"
            none none none .undef none (some ["r1", "r2"])))
        (ModalState.mk 1 true).currentImageIndex := by
  have h := (arrow_keys_frame
    (Apartment.mk "u6" "A-106" "first" "studio" "available"
      none none none .undef none (some ["r1", "r2"]))
    (ModalState.mk 1 true) .arrowRight (Or.inl rfl)).2.1 (by decide)
  exact ⟨h.1, h.2.1, h.2.2.1 rfl⟩

/-- C10: for a record whose renders sequence is empty or absent the
lightbox is closed in every reachable state: it starts closed, the only
interactions that open it exist only when the gallery is rendered,
which needs a non-empty renders sequence, and so the lightbox overlay
is never displayed. -/
theorem lightbox_closed_invariant (a : Apartment)
    (hr : a.renders = none ∨ a.renders = some []) :
    initialState.lightboxOpen = false ∧
    ∀ s : ModalState, Reachable a s →
      s.lightboxOpen = false ∧ lightboxRendered a s = false := by
  have hg : galleryRendered a = false := by
    rcases hr with h | h <;> simp [galleryRendered, rendersLen, h]
  refine ⟨rfl, ?_⟩
  intro s hs
  have hmain : s.lightboxOpen = false := by
    induction hs with
    | init => rfl
    | step hr' he ih =>
      rename_i s' e
      cases e with
      | keydown k =>
        cases k <;> simp only [step, onKey] <;> (try split_ifs) <;> simp_all
      | headerCloseClick => simpa [step] using ih
      | prevButtonClick => simpa [step] using ih
      | nextButtonClick => simpa [step] using ih
      | imageClick =>
        rw [eventEnabled, hg] at he
        cases he
      | expandClick =>
        rw [eventEnabled, hg] at he
        cases he
      | lightboxCloseClick => simp [step]
      | mainBackdropClick t =>
        simp only [step, handleBackdropClick]
        split_ifs <;> simp_all
      | lightboxBackdropClick t =>
        simp only [step, handleBackdropClick]
        split_ifs <;> simp_all
  exact ⟨hmain, by simp [lightboxRendered, hmain]⟩

/-- Witness for C10 at a concrete record with absent renders and the
initial state. -/
theorem lightbox_closed_invariant_witness :
    initialState.lightboxOpen = false ∧
    lightboxRendered
      (Apartment.mk "u7" "A-107" "first" "studio" "available"
        none none none .undef none none) initialState = false := by
  have h := lightbox_closed_invariant
    (Apartment.mk "u7" "A-107" "first" "studio" "available"
      none none none .undef none none) (Or.inl rfl)
  exact ⟨h.1, (h.2 initialState Reachable.init).2⟩
